import Mathlib

/-!
Shallow embedding of the ingredient-scanner backend (src/backend/main.py and
src/backend/openai_client.py) and proofs of the specification claims.

The repository contains two concatenated service variants in main.py:
* lines 1-235: a local-catalog cosmetics service (`/cosmetics/analyze`);
* lines 236-301: a remote-catalog variant (`/analyze`) backed by Open Food Facts.

Python strings are modelled as Lean `String`s; `str.strip`/`str.upper`/`str.lower`
are modelled character-wise on `String.data` (the service only handles ASCII
INCI identifiers and risk labels, for which Python's and these functions agree).
External effects (the OpenAI chat-completion calls, the upstream HTTP fetch) are
modelled by explicit outcome parameters, and Python exceptions by `Except`.
-/

/-- ASCII whitespace stripped by Python's `str.strip()`:
space (32) and the control characters TAB, LF, VT, FF, CR (9-13). -/
def pyIsSpace (c : Char) : Bool :=
  c.toNat == 32 || (9 ≤ c.toNat && c.toNat ≤ 13)

/-- Python `str.strip()` on the character list of a string: drop whitespace
from the front, then from the back. -/
def pyStripChars (l : List Char) : List Char :=
  ((l.dropWhile pyIsSpace).reverse.dropWhile pyIsSpace).reverse

/-- Python `str.upper()` on the character list of a string (ASCII letters). -/
def pyUpperChars (l : List Char) : List Char :=
  l.map Char.toUpper

/-- Python `str.lower()` on the character list of a string (ASCII letters). -/
def pyLowerChars (l : List Char) : List Char :=
  l.map Char.toLower

/-- Python `s.lower()` as a `String` operation. -/
def pyLower (s : String) : String :=
  ⟨pyLowerChars s.data⟩

/-- main.py line 132: `normalize_inci(name) = name.strip().upper()`. -/
def normalize_inci (name : String) : String :=
  ⟨pyUpperChars (pyStripChars name.data)⟩

/-- main.py line 14: the fixed disclaimer string. -/
def DISCLAIMER_TEXT : String :=
  "This analysis is informational only and not medical advice."

/-- An entry of the static ingredient knowledge base (main.py lines 50-111).
All four attributes are present on every entry of the table. -/
structure DBEntry where
  function : String
  origin : String
  risk_level : String
  concerns : List String
deriving DecidableEq

/-- main.py lines 50-111: `INGREDIENT_DB`, keyed by normalized INCI name. -/
def INGREDIENT_DB : List (String × DBEntry) :=
  [("AQUA", ⟨"solvent", "mineral", "low", []⟩),
   ("GLYCERIN", ⟨"humectant", "plant-based", "low", []⟩),
   ("CETYL ALCOHOL", ⟨"emollient", "plant-based", "low",
      ["generally well-tolerated fatty alcohol"]⟩),
   ("PARFUM", ⟨"fragrance", "synthetic", "medium",
      ["fragrance allergens", "potential irritation"]⟩),
   ("PHENOXYETHANOL", ⟨"preservative", "synthetic", "medium",
      ["may irritate sensitive skin at higher levels"]⟩),
   ("C12-15 ALKYL BENZOATE", ⟨"emollient", "synthetic", "low", []⟩),
   ("ETHYLHEXYL METHOXYCINNAMATE", ⟨"UV filter", "synthetic", "medium",
      ["possible photoallergy in sensitive individuals"]⟩),
   ("TITANIUM DIOXIDE", ⟨"UV filter", "mineral", "low",
      ["avoid inhalation of loose powders"]⟩),
   ("CAPRYLIC/CAPRIC TRIGLYCERIDE", ⟨"emollient", "plant-based", "low", []⟩),
   ("NIACINAMIDE", ⟨"skin conditioning", "synthetic", "low",
      ["rare flushing in very high concentrations"]⟩)]

/-- A product of the static catalog (main.py lines 18-48). -/
structure Product where
  product_name : String
  ingredients_inci : List String
deriving DecidableEq

/-- main.py lines 18-48: `PRODUCT_CATALOG`, keyed by barcode. -/
def PRODUCT_CATALOG : List (String × Product) :=
  [("4005900889089", ⟨"Gentle Daily Moisturizer",
      ["AQUA", "GLYCERIN", "CETYL ALCOHOL", "PARFUM", "PHENOXYETHANOL"]⟩),
   ("3606000430150", ⟨"SPF 50 Face Sunscreen",
      ["AQUA", "C12-15 ALKYL BENZOATE", "ETHYLHEXYL METHOXYCINNAMATE",
       "TITANIUM DIOXIDE", "PARFUM"]⟩),
   ("5012000000001", ⟨"Soothing Night Cream",
      ["AQUA", "CAPRYLIC/CAPRIC TRIGLYCERIDE", "NIACINAMIDE", "PARFUM"]⟩)]

/-- main.py lines 136-137: `lookup_product_by_barcode`. -/
def lookup_product_by_barcode (barcode : String) : Option Product :=
  PRODUCT_CATALOG.lookup barcode

/-- The dict returned by `lookup_ingredient` (main.py lines 140-158). -/
structure IngredientInfo where
  inci_name : String
  function : String
  origin : Option String
  risk_level : String
  concerns : List String
deriving DecidableEq

/-- main.py lines 140-158: `lookup_ingredient`. On a knowledge-base hit the
stored attributes are returned (every entry has all four fields, so the
`.get` defaults of the source never fire); on a miss, a synthetic
unknown record. -/
def lookup_ingredient (inci_name : String) : IngredientInfo :=
  let normalized := normalize_inci inci_name
  match INGREDIENT_DB.lookup normalized with
  | some base_info =>
      { inci_name := normalized
        function := base_info.function
        origin := some base_info.origin
        risk_level := base_info.risk_level
        concerns := base_info.concerns }
  | none =>
      { inci_name := normalized
        function := "unknown"
        origin := none
        risk_level := "unknown"
        concerns := ["Not found in knowledge base"] }

/-- main.py lines 161-169: `fallback_summary`. The source tests `if concerns:`
(non-emptiness) and joins with "; "; the branches are written here with the
empty case first. -/
def fallback_summary (base_info : IngredientInfo) : String :=
  let concerns_text :=
    if base_info.concerns.isEmpty then "No notable concerns recorded."
    else String.intercalate "; " base_info.concerns
  base_info.inci_name ++ " is labeled " ++ base_info.risk_level ++ " risk. " ++ concerns_text

/-- The response item model `IngredientRisk` (main.py lines 114-120). -/
structure IngredientRisk where
  inciName : String
  function : String
  origin : Option String
  riskLevel : String
  concerns : List String
  aiSummary : String
deriving DecidableEq

/-- main.py line 173: the weight table of `fallback_overall`. -/
def risk_map : List (String × Nat) :=
  [("high", 3), ("medium", 2), ("low", 1), ("unknown", 2)]

/-- main.py line 177: `risk_map.get(item.riskLevel.lower(), 2)` — the weight
given to one annotation inside `fallback_overall`. -/
def riskWeight (riskLevel : String) : Nat :=
  (risk_map.lookup (pyLower riskLevel)).getD 2

/-- Python `/` on the exact values involved: raises (`none`) on a zero
divisor, otherwise exact division. -/
def pyDiv (a b : ℚ) : Option ℚ :=
  if b = 0 then none else some (a / b)

/-- main.py lines 172-188: `fallback_overall`. The average is taken exactly
(in `ℚ`); `none` would model a ZeroDivisionError, which the empty-list
guard prevents. -/
def fallback_overall (ingredients : List IngredientRisk) : Option (String × String) :=
  if ingredients.isEmpty then
    some ("B", "No ingredients provided for scoring.")
  else do
    let total : Nat := (ingredients.map (fun item => riskWeight item.riskLevel)).sum
    let avg_score ← pyDiv (total : ℚ) (ingredients.length : ℚ)
    if avg_score ≥ (2.5 : ℚ) then
      some ("C", "Contains ingredients that may warrant caution for sensitive skin.")
    else if avg_score ≥ (1.8 : ℚ) then
      some ("B", "Generally moderate profile with some potential irritants.")
    else
      some ("A", "Low-risk profile based on known ingredients.")

/-- A raised `fastapi.HTTPException`. -/
structure HTTPExc where
  status_code : Nat
  detail : String
deriving DecidableEq

/-- The response model `ProductAnalysisResponse` (main.py lines 123-129). -/
structure ProductAnalysisResponse where
  productName : String
  barcode : String
  ingredients : List IngredientRisk
  overallScore : String
  overallSummary : String
  disclaimer : String
deriving DecidableEq

/-- The for-loop of `analyze_cosmetic` (main.py lines 197-214): build one
annotation per declared ingredient, in order. When OpenAI is configured the
summary comes from the external call (modelled by the oracle `summarizeIng`,
whose error propagates like the raised exception); otherwise from
`fallback_summary`. -/
def buildIngredients (cfg : Bool)
    (summarizeIng : String → IngredientInfo → Except HTTPExc String) :
    List String → Except HTTPExc (List IngredientRisk)
  | [] => .ok []
  | inci :: rest => do
      let base_info := lookup_ingredient inci
      let ai_summary ←
        if cfg then summarizeIng inci base_info
        else .ok (fallback_summary base_info)
      let item : IngredientRisk :=
        { inciName := base_info.inci_name
          function := base_info.function
          origin := base_info.origin
          riskLevel := base_info.risk_level
          concerns := base_info.concerns
          aiSummary := ai_summary }
      let tail ← buildIngredients cfg summarizeIng rest
      .ok (item :: tail)

/-- main.py lines 191-235: the `/cosmetics/analyze` handler `analyze_cosmetic`.
`cfg` is `is_openai_configured()`; the two oracles model the external
`summarize_ingredient` / `summarize_product` calls (returning the summary,
resp. the overallScore/overallSummary pair, or a raised `HTTPExc`). A
ZeroDivisionError escaping `fallback_overall` would surface as a 500. -/
def analyze_cosmetic (cfg : Bool)
    (summarizeIng : String → IngredientInfo → Except HTTPExc String)
    (summarizeProd : String → List IngredientRisk → Except HTTPExc (String × String))
    (barcode : String) : Except HTTPExc ProductAnalysisResponse := do
  match lookup_product_by_barcode barcode with
  | none => .error ⟨404, "Product not found in cosmetics catalog."⟩
  | some product => do
      let ingredients ← buildIngredients cfg summarizeIng product.ingredients_inci
      let overall ←
        if cfg then summarizeProd product.product_name ingredients
        else
          match fallback_overall ingredients with
          | some fb => .ok fb
          | none => .error ⟨500, "Internal Server Error"⟩
      .ok { productName := product.product_name
            barcode := barcode
            ingredients := ingredients
            overallScore := overall.1
            overallSummary := overall.2
            disclaimer := DISCLAIMER_TEXT }

/-- Python truthiness of an optional string: `None` and `""` are falsy. -/
def pyTruthy (s : Option String) : Bool :=
  match s with
  | none => false
  | some s => s ≠ ""

/-- Python `a or b` on optional strings (used for the two upstream fields). -/
def pyOrStr (a b : Option String) : Option String :=
  if pyTruthy a then a else b

/-- Python `a or dflt` where `dflt` is a (truthy) string literal. -/
def pyStrOr (a : Option String) (dflt : String) : String :=
  match a with
  | some s => if s = "" then dflt else s
  | none => dflt

/-- Outcome of one external chat-completion call, as seen by the client code:
the call itself can fail (network/auth/quota), the model can return empty
content, the content can be invalid JSON, or a parsed value is obtained. -/
inductive LLMCallOutcome (α : Type) where
  | callFailed
  | emptyContent
  | invalidJson
  | ok (value : α)

/-- openai_client.py line 10:
`client = AsyncOpenAI(api_key=API_KEY) if API_KEY else None`
(an unset or empty `OPENAI_API_KEY` leaves the client unconfigured). -/
def openaiClient (api_key : Option String) : Option Unit :=
  if pyTruthy api_key then some () else none

/-- openai_client.py lines 13-14: `is_openai_configured`. -/
def is_openai_configured (api_key : Option String) : Bool :=
  (openaiClient api_key).isSome

/-- openai_client.py lines 22-66: `summarize_ingredient`. The parsed reply
carries `parsed.get("summary")` (absent → the fixed placeholder). The
`inci_name`/`base_info` arguments only shape the prompt text. -/
def summarize_ingredient (api_key : Option String)
    (reply : LLMCallOutcome (Option String))
    (inci_name : String) (base_info : IngredientInfo) : Except HTTPExc String :=
  if (openaiClient api_key).isNone then
    .error ⟨500, "OPENAI_API_KEY is not configured."⟩
  else
    match reply with
    | .callFailed => .error ⟨502, "OpenAI ingredient summary failed."⟩
    | .emptyContent => .error ⟨500, "Empty response from OpenAI."⟩
    | .invalidJson => .error ⟨500, "Failed to parse OpenAI ingredient summary."⟩
    | .ok summary => .ok (summary.getD "No summary provided.")

/-- openai_client.py lines 69-115: `summarize_product`. The parsed reply
carries `parsed.get("overallScore")` and `parsed.get("overallSummary")`
(absent → the documented defaults). -/
def summarize_product (api_key : Option String)
    (reply : LLMCallOutcome (Option String × Option String))
    (product_name : String) (ingredients : List IngredientRisk) :
    Except HTTPExc (String × String) :=
  if (openaiClient api_key).isNone then
    .error ⟨500, "OPENAI_API_KEY is not configured."⟩
  else
    match reply with
    | .callFailed => .error ⟨502, "OpenAI product summary failed."⟩
    | .emptyContent => .error ⟨500, "Empty response from OpenAI."⟩
    | .invalidJson => .error ⟨500, "Failed to parse OpenAI product summary."⟩
    | .ok (score, summary) =>
        .ok (score.getD "B", summary.getD "General cosmetic profile with no specific medical claims.")

/-- The `Ingredient` response model of the remote variant (main.py lines 250-253). -/
structure Ingredient where
  name : String
  risk : String
  details : String
deriving DecidableEq

/-- The `ProductAnalysis` response model of the remote variant (main.py lines 256-259). -/
structure ProductAnalysis where
  productName : String
  ingredients : List Ingredient
  overallScore : String
deriving DecidableEq

/-- Modelled from the spec: `analyze_ingredients_with_openai` is imported by
the remote-catalog handler (main.py line 243) but its definition is not in the
corpus (only variant 1's openai_client.py is). Per spec section 4.4 it takes the
raw free-text ingredient listing plus product name and returns a full
structured analysis (ingredient array with name/risk/details, overall score)
in one chat-completion call, with the same JSON-contract and failure handling
as the per-ingredient and per-product calls: unconfigured client → 500,
external call failure → 502, empty content → 500, invalid JSON → 500. -/
def analyze_ingredients_with_openai (api_key : Option String)
    (reply : LLMCallOutcome (List Ingredient × String))
    (ingredients_text : String) (product_name : String) :
    Except HTTPExc ProductAnalysis :=
  if (openaiClient api_key).isNone then
    .error ⟨500, "OPENAI_API_KEY is not configured."⟩
  else
    match reply with
    | .callFailed => .error ⟨502, "OpenAI ingredient analysis failed."⟩
    | .emptyContent => .error ⟨500, "Empty response from OpenAI."⟩
    | .invalidJson => .error ⟨500, "Failed to parse OpenAI ingredient analysis."⟩
    | .ok (ingredients, score) =>
        .ok { productName := product_name, ingredients := ingredients, overallScore := score }

/-- The HTTP status carried by an enrichment-call result (200 on success). -/
def statusOf {α : Type} : Except HTTPExc α → Nat
  | .error e => e.status_code
  | .ok _ => 200

/-- The fields of the upstream Open Food Facts product document that the
remote handler reads (main.py lines 279-280). -/
structure OFFProduct where
  product_name : Option String
  product_name_en : Option String
  ingredients_text : Option String
  ingredients_text_en : Option String
deriving DecidableEq

/-- The upstream Open Food Facts response body (main.py lines 275-278):
`.get("status")` and `.get("product", {})`. -/
structure OFFResponse where
  status : Option Int
  product : Option OFFProduct
deriving DecidableEq

/-- main.py lines 262-268: `fetch_product_from_open_food_facts`, as a function
of the upstream HTTP status code and body. -/
def fetch_product_from_open_food_facts (status_code : Nat) (body : OFFResponse) :
    Except HTTPExc OFFResponse :=
  if status_code ≠ 200 then .error ⟨502, "Failed to reach Open Food Facts."⟩
  else .ok body

/-- The JSON content returned by the remote `/analyze` handler: either the
`ProductAnalysis` fields, or the explicit no-ingredients payload whose extra
`message` field is modelled by `message = some …`. -/
structure AnalyzeSuccess where
  statusCode : Nat
  productName : String
  ingredients : List Ingredient
  overallScore : String
  message : Option String
deriving DecidableEq

/-- main.py lines 271-300: the remote `/analyze` handler, as a function of the
upstream HTTP status code and body and of the enrichment call's outcome. -/
def analyze (status_code : Nat) (body : OFFResponse) (api_key : Option String)
    (reply : LLMCallOutcome (List Ingredient × String)) :
    Except HTTPExc AnalyzeSuccess := do
  let product_response ← fetch_product_from_open_food_facts status_code body
  if product_response.status ≠ some 1 then
    .error ⟨404, "Product not found in Open Food Facts."⟩
  else do
    let product := product_response.product.getD ⟨none, none, none, none⟩
    let product_name := pyStrOr product.product_name (pyStrOr product.product_name_en "Unknown product")
    let ingredients_text := pyOrStr product.ingredients_text product.ingredients_text_en
    if pyTruthy ingredients_text = false then
      .ok { statusCode := 200
            productName := product_name
            ingredients := []
            overallScore := "N/A"
            message := some "Ingredients not available for this product." }
    else do
      let analysis ← analyze_ingredients_with_openai api_key reply
        (ingredients_text.getD "") product_name
      .ok { statusCode := 200
            productName := analysis.productName
            ingredients := analysis.ingredients
            overallScore := analysis.overallScore
            message := none }

/-- The spec's weight table (spec section 4.3), written from the spec's words
for comparison with `fallback_overall`: low=1, medium=2, high=3, unknown=2. -/
def specRiskWeight : String → Nat
  | "low" => 1
  | "medium" => 2
  | "high" => 3
  | "unknown" => 2
  | _ => 0

/-- The spec's aggregate average (spec section 4.3), written from the spec's
words: average the weights across all ingredients, exactly. -/
def specAverage (ingredients : List IngredientRisk) : ℚ :=
  ((ingredients.map (fun item => specRiskWeight item.riskLevel)).sum : ℚ) /
    (ingredients.length : ℚ)

/-- The spec's threshold rule (spec section 4.3), written from the spec's
words: average ≥ 2.5 → "C", ≥ 1.8 → "B", otherwise "A", inclusive at both
boundaries. -/
def specScore (ingredients : List IngredientRisk) : String :=
  if specAverage ingredients ≥ (2.5 : ℚ) then "C"
  else if specAverage ingredients ≥ (1.8 : ℚ) then "B"
  else "A"

/-- A concrete two-annotation list used to witness the scoring claims. -/
def c1Example : List IngredientRisk :=
  [{ inciName := "PARFUM", function := "fragrance", origin := some "synthetic",
     riskLevel := "medium", concerns := ["fragrance allergens"], aiSummary := "" },
   { inciName := "AQUA", function := "solvent", origin := some "mineral",
     riskLevel := "low", concerns := [], aiSummary := "" }]

/-- A per-ingredient enrichment oracle that always succeeds (for witnesses). -/
def c2SummarizeIngOracle : String → IngredientInfo → Except HTTPExc String :=
  fun _ _ => .ok "summary"

/-- A per-product enrichment oracle that always succeeds (for witnesses). -/
def c2SummarizeProdOracle : String → List IngredientRisk → Except HTTPExc (String × String) :=
  fun _ _ => .ok ("B", "Moderate risk profile.")

/-- The catalog record of barcode 4005900889089. -/
def c2Product : Product :=
  { product_name := "Gentle Daily Moisturizer"
    ingredients_inci := ["AQUA", "GLYCERIN", "CETYL ALCOHOL", "PARFUM", "PHENOXYETHANOL"] }

/-- The response the handler returns for barcode 4005900889089 with the
always-succeeding oracles of the witness. -/
def c2Response : ProductAnalysisResponse :=
  { productName := "Gentle Daily Moisturizer"
    barcode := "4005900889089"
    ingredients :=
      [{ inciName := "AQUA", function := "solvent", origin := some "mineral",
         riskLevel := "low", concerns := [], aiSummary := "summary" },
       { inciName := "GLYCERIN", function := "humectant", origin := some "plant-based",
         riskLevel := "low", concerns := [], aiSummary := "summary" },
       { inciName := "CETYL ALCOHOL", function := "emollient", origin := some "plant-based",
         riskLevel := "low", concerns := ["generally well-tolerated fatty alcohol"],
         aiSummary := "summary" },
       { inciName := "PARFUM", function := "fragrance", origin := some "synthetic",
         riskLevel := "medium", concerns := ["fragrance allergens", "potential irritation"],
         aiSummary := "summary" },
       { inciName := "PHENOXYETHANOL", function := "preservative", origin := some "synthetic",
         riskLevel := "medium", concerns := ["may irritate sensitive skin at higher levels"],
         aiSummary := "summary" }]
    overallScore := "B"
    overallSummary := "Moderate risk profile."
    disclaimer := DISCLAIMER_TEXT }

/-- A knowledge-base record used to instantiate enrichment-call witnesses. -/
def c5Info : IngredientInfo :=
  { inci_name := "AQUA", function := "solvent", origin := some "mineral",
    risk_level := "low", concerns := [] }

deriving instance DecidableEq for Except

theorem char_toNat_ofNat_of_valid (n : Nat) (h : n < 0xd800) : (Char.ofNat n).toNat = n := by
  have hv : n.isValidChar := Or.inl h
  rw [Char.ofNat, dif_pos hv]
  simp [Char.ofNatAux, Char.toNat, UInt32.toNat, BitVec.toNat_ofNatLt]

theorem char_toNat_toUpper (c : Char) :
    (Char.toUpper c).toNat =
      if c.toNat ≥ 97 ∧ c.toNat ≤ 122 then c.toNat - 32 else c.toNat := by
  rw [Char.toUpper]
  split
  · exact char_toNat_ofNat_of_valid _ (by omega)
  · rfl

theorem char_toNat_toLower (c : Char) :
    (Char.toLower c).toNat =
      if c.toNat ≥ 65 ∧ c.toNat ≤ 90 then c.toNat + 32 else c.toNat := by
  rw [Char.toLower]
  split
  · exact char_toNat_ofNat_of_valid _ (by omega)
  · rfl

theorem pyIsSpace_toUpper (c : Char) : pyIsSpace (Char.toUpper c) = pyIsSpace c := by
  simp only [pyIsSpace]
  rw [Bool.eq_iff_iff]
  simp only [Bool.or_eq_true, Bool.and_eq_true, beq_iff_eq, decide_eq_true_eq,
    char_toNat_toUpper]
  split_ifs <;> omega

theorem char_toUpper_toUpper (c : Char) : (Char.toUpper c).toUpper = Char.toUpper c := by
  have h := char_toNat_toUpper c
  nth_rewrite 1 [Char.toUpper]
  rw [if_neg]
  rw [h]
  split_ifs <;> omega

theorem char_toLower_toLower (c : Char) : (Char.toLower c).toLower = Char.toLower c := by
  have h := char_toNat_toLower c
  nth_rewrite 1 [Char.toLower]
  rw [if_neg]
  rw [h]
  split_ifs <;> omega

theorem dropWhile_dropWhile_self {α : Type} (p : α → Bool) (l : List α) :
    (l.dropWhile p).dropWhile p = l.dropWhile p := by
  cases h : l.dropWhile p with
  | nil => rfl
  | cons a t =>
    have h2 := List.head?_dropWhile_not p l
    rw [h] at h2
    simp only [List.head?_cons] at h2
    simp [List.dropWhile_cons, h2]

theorem dropWhile_eq_self_of_prefix {α : Type} {p : α → Bool} {l pref : List α}
    (hl : l.dropWhile p = l) (hp : pref <+: l) : pref.dropWhile p = pref := by
  cases pref with
  | nil => rfl
  | cons a t =>
    obtain ⟨s, hs⟩ := hp
    have ha : p a = false := by
      by_contra hpa
      have hpa' : p a = true := by revert hpa; cases p a <;> simp
      rw [← hs, List.cons_append, List.dropWhile_cons_of_pos hpa'] at hl
      have hle := (List.dropWhile_sublist (l := t ++ s) p).length_le
      have hlen := congrArg List.length hl
      rw [List.length_cons] at hlen
      omega
    simp [List.dropWhile_cons, ha]

theorem pyStripChars_idem (l : List Char) : pyStripChars (pyStripChars l) = pyStripChars l := by
  have step1 : (pyStripChars l).dropWhile pyIsSpace = pyStripChars l := by
    apply dropWhile_eq_self_of_prefix (l := l.dropWhile pyIsSpace)
    · exact dropWhile_dropWhile_self pyIsSpace l
    · rw [pyStripChars]
      nth_rewrite 2 [← List.reverse_reverse (List.dropWhile pyIsSpace l)]
      exact List.reverse_prefix.mpr (List.dropWhile_suffix pyIsSpace)
  have step2 : (pyStripChars l).reverse.dropWhile pyIsSpace = (pyStripChars l).reverse := by
    rw [pyStripChars, List.reverse_reverse]
    exact dropWhile_dropWhile_self pyIsSpace _
  show ((((pyStripChars l).dropWhile pyIsSpace).reverse).dropWhile pyIsSpace).reverse = pyStripChars l
  rw [step1, step2, List.reverse_reverse]

theorem pyStripChars_upperChars (l : List Char) :
    pyStripChars (pyUpperChars l) = pyUpperChars (pyStripChars l) := by
  have hfun : (fun c => pyIsSpace (Char.toUpper c)) = pyIsSpace :=
    funext fun c => pyIsSpace_toUpper c
  simp only [pyStripChars, pyUpperChars, List.dropWhile_map, Function.comp_def, hfun,
    ← List.map_reverse]

theorem normalize_inci_idem (s : String) :
    normalize_inci (normalize_inci s) = normalize_inci s := by
  unfold normalize_inci
  congr 1
  show pyUpperChars (pyStripChars (pyUpperChars (pyStripChars s.data))) = _
  rw [pyStripChars_upperChars, pyStripChars_idem]
  simp only [pyUpperChars, List.map_map]
  rw [show (Char.toUpper ∘ Char.toUpper) = Char.toUpper from funext char_toUpper_toUpper]

theorem pyLower_pyLower (s : String) : pyLower (pyLower s) = pyLower s := by
  unfold pyLower
  congr 1
  show pyLowerChars (pyLowerChars s.data) = _
  simp only [pyLowerChars, List.map_map]
  rw [show (Char.toLower ∘ Char.toLower) = Char.toLower from funext char_toLower_toLower]

theorem except_bind_ok {ε α β : Type} (a : α) (f : α → Except ε β) :
    (Except.ok a >>= f : Except ε β) = f a := rfl

theorem except_bind_error {ε α β : Type} (e : ε) (f : α → Except ε β) :
    ((Except.error e : Except ε α) >>= f : Except ε β) = Except.error e := rfl

theorem option_bind_some {α β : Type} (a : α) (f : α → Option β) :
    ((some a : Option α) >>= f) = f a := rfl

theorem lookup_ingredient_inci_name (inci_name : String) :
    (lookup_ingredient inci_name).inci_name = normalize_inci inci_name := by
  simp only [lookup_ingredient]
  split <;> rfl

theorem lookup_ingredient_congr {a b : String}
    (h : normalize_inci a = normalize_inci b) :
    lookup_ingredient a = lookup_ingredient b := by
  unfold lookup_ingredient
  rw [h]

theorem buildIngredients_map_inciName (cfg : Bool)
    (summarizeIng : String → IngredientInfo → Except HTTPExc String) :
    ∀ (l : List String) (ys : List IngredientRisk),
      buildIngredients cfg summarizeIng l = .ok ys →
      ys.map IngredientRisk.inciName = l.map normalize_inci := by
  intro l
  induction l with
  | nil =>
    intro ys h
    simp only [buildIngredients] at h
    cases h
    rfl
  | cons inci rest ih =>
    intro ys h
    simp only [buildIngredients] at h
    by_cases hc : cfg = true
    · rw [if_pos hc] at h
      cases hs : summarizeIng inci (lookup_ingredient inci) with
      | error e =>
        rw [hs, except_bind_error] at h
        cases h
      | ok s =>
        rw [hs, except_bind_ok] at h
        cases ht : buildIngredients cfg summarizeIng rest with
        | error e =>
          rw [ht, except_bind_error] at h
          cases h
        | ok tail =>
          rw [ht, except_bind_ok] at h
          cases h
          simp only [List.map_cons]
          rw [lookup_ingredient_inci_name, ih tail ht]
    · rw [if_neg hc, except_bind_ok] at h
      cases ht : buildIngredients cfg summarizeIng rest with
      | error e =>
        rw [ht, except_bind_error] at h
        cases h
      | ok tail =>
        rw [ht, except_bind_ok] at h
        cases h
        simp only [List.map_cons]
        rw [lookup_ingredient_inci_name, ih tail ht]

theorem fallback_overall_isSome (ingredients : List IngredientRisk) :
    (fallback_overall ingredients).isSome := by
  unfold fallback_overall
  split
  · rfl
  · next hne =>
    have hlen : (ingredients.length : ℚ) ≠ 0 := by
      have : ingredients ≠ [] := by simpa using hne
      have : 0 < ingredients.length := List.length_pos.mpr this
      exact_mod_cast Nat.pos_iff_ne_zero.mp this
    simp only [pyDiv, if_neg hlen]
    rw [option_bind_some]
    split_ifs <;> rfl

/-- Claim C3: for every raw ingredient name whose normalized form is absent
from the knowledge base, `lookup_ingredient` (a total function: it never
raises) returns the synthetic record with function and risk level "unknown",
origin marked unknown (`none`), and exactly the single
"Not found in knowledge base" concern. -/
theorem c3_lookup_miss_returns_synthetic_record (inci_name : String)
    (h : INGREDIENT_DB.lookup (normalize_inci inci_name) = none) :
    lookup_ingredient inci_name =
      { inci_name := normalize_inci inci_name
        function := "unknown"
        origin := none
        risk_level := "unknown"
        concerns := ["Not found in knowledge base"] } := by
  simp only [lookup_ingredient, h]

/-- Witness for C3 at the concrete absent name "Imaginarium extract". -/
theorem c3_lookup_miss_returns_synthetic_record_witness :
    lookup_ingredient "Imaginarium extract" =
      { inci_name := normalize_inci "Imaginarium extract"
        function := "unknown"
        origin := none
        risk_level := "unknown"
        concerns := ["Not found in knowledge base"] } :=
  c3_lookup_miss_returns_synthetic_record "Imaginarium extract" (by decide)

/-- Claim C4: normalization (trim then uppercase) is idempotent, raw names
with the same normalized form get identical knowledge-base records, and in
particular "  parfum " and "PARFUM" look up to the same record. -/
theorem c4_normalization_idempotent_and_lookup_congruent :
    (∀ s : String, normalize_inci (normalize_inci s) = normalize_inci s) ∧
    (∀ a b : String, normalize_inci a = normalize_inci b →
      lookup_ingredient a = lookup_ingredient b) ∧
    lookup_ingredient "  parfum " = lookup_ingredient "PARFUM" := by
  refine ⟨normalize_inci_idem, fun a b h => lookup_ingredient_congr h, ?_⟩
  exact lookup_ingredient_congr (by decide)

/-- Witness for C4 at the concrete pair of the claim. -/
theorem c4_normalization_idempotent_and_lookup_congruent_witness :
    normalize_inci (normalize_inci "  parfum ") = normalize_inci "  parfum " ∧
    lookup_ingredient "  parfum " = lookup_ingredient "PARFUM" :=
  ⟨c4_normalization_idempotent_and_lookup_congruent.1 "  parfum ",
   c4_normalization_idempotent_and_lookup_congruent.2.1 "  parfum " "PARFUM" (by decide)⟩

/-- Claim C9: the deterministic fallback scorer and the per-ingredient
fallback summary are total: for every annotation list (the empty list
included) `fallback_overall` returns a result (in particular the division by
the list length never raises), and for every record `fallback_summary`
returns a string; neither can raise. -/
theorem c9_fallback_scoring_and_summary_total :
    (∀ ingredients : List IngredientRisk,
      ∃ result, fallback_overall ingredients = some result) ∧
    (∀ base_info : IngredientInfo, ∃ text, fallback_summary base_info = text) := by
  constructor
  · intro ingredients
    have h := fallback_overall_isSome ingredients
    exact ⟨(fallback_overall ingredients).get h, (Option.some_get h).symm⟩
  · intro base_info
    exact ⟨fallback_summary base_info, rfl⟩

theorem list_isEmpty_map {α β : Type} (f : α → β) (l : List α) :
    (l.map f).isEmpty = l.isEmpty := by
  cases l <;> rfl

theorem riskWeight_pyLower (level : String) :
    riskWeight (pyLower level) = riskWeight level := by
  unfold riskWeight
  rw [pyLower_pyLower]

/-- Claim C10: the weight used by `fallback_overall` is computed on the
lowercased risk level (so weighting is case-insensitive, and lowercasing the
risk levels of a list of annotations does not change the aggregate result),
and every risk level whose lowercased form is outside
high/medium/low/unknown is weighted 2. -/
theorem c10_risk_weight_case_insensitive_default_two :
    (∀ level : String, riskWeight level = riskWeight (pyLower level)) ∧
    (∀ level : String,
      pyLower level ∉ (["high", "medium", "low", "unknown"] : List String) →
      riskWeight level = 2) ∧
    (∀ ingredients : List IngredientRisk,
      fallback_overall
          (ingredients.map (fun item => { item with riskLevel := pyLower item.riskLevel })) =
        fallback_overall ingredients) := by
  refine ⟨fun level => (riskWeight_pyLower level).symm, ?_, ?_⟩
  · intro level h
    simp only [List.mem_cons, List.not_mem_nil, or_false, not_or] at h
    obtain ⟨h1, h2, h3, h4⟩ := h
    have hnone : risk_map.lookup (pyLower level) = none := by
      rw [List.lookup_eq_none_iff]
      intro p hp
      simp only [risk_map, List.mem_cons, List.not_mem_nil, or_false] at hp
      rcases hp with rfl | rfl | rfl | rfl <;> simpa
    unfold riskWeight
    rw [hnone]
    rfl
  · intro ingredients
    unfold fallback_overall
    rw [list_isEmpty_map]
    rw [List.map_map, List.length_map]
    have hmaps :
        ingredients.map
            ((fun item => riskWeight item.riskLevel) ∘
              (fun item : IngredientRisk => { item with riskLevel := pyLower item.riskLevel })) =
          ingredients.map (fun item => riskWeight item.riskLevel) := by
      apply List.map_congr_left
      intro item _
      exact riskWeight_pyLower item.riskLevel
    rw [hmaps]

/-- Witness for C10: "HIGH" weighs the same as its lowercase form, and the
out-of-table level "Severe" weighs 2. -/
theorem c10_risk_weight_case_insensitive_default_two_witness :
    riskWeight "HIGH" = riskWeight (pyLower "HIGH") ∧ riskWeight "Severe" = 2 :=
  ⟨c10_risk_weight_case_insensitive_default_two.1 "HIGH",
   c10_risk_weight_case_insensitive_default_two.2.1 "Severe" (by decide)⟩

/-- Claim C7: in the remote-catalog variant, every upstream response with a
non-200 HTTP status makes `fetch_product_from_open_food_facts` raise the
502 upstream-unreachable error, which the `/analyze` handler propagates
unchanged (502, not 500). -/
theorem c7_upstream_non_200_gives_502 (status_code : Nat) (body : OFFResponse)
    (api_key : Option String) (reply : LLMCallOutcome (List Ingredient × String))
    (h : status_code ≠ 200) :
    fetch_product_from_open_food_facts status_code body =
      .error ⟨502, "Failed to reach Open Food Facts."⟩ ∧
    analyze status_code body api_key reply =
      .error ⟨502, "Failed to reach Open Food Facts."⟩ := by
  have hf : fetch_product_from_open_food_facts status_code body =
      .error ⟨502, "Failed to reach Open Food Facts."⟩ := by
    unfold fetch_product_from_open_food_facts
    rw [if_pos h]
  refine ⟨hf, ?_⟩
  unfold analyze
  rw [hf, except_bind_error]

/-- Witness for C7 at upstream status 500. -/
theorem c7_upstream_non_200_gives_502_witness :
    fetch_product_from_open_food_facts 500 ⟨some 1, none⟩ =
      .error ⟨502, "Failed to reach Open Food Facts."⟩ ∧
    analyze 500 ⟨some 1, none⟩ none .callFailed =
      .error ⟨502, "Failed to reach Open Food Facts."⟩ :=
  c7_upstream_non_200_gives_502 500 ⟨some 1, none⟩ none .callFailed (by decide)

/-- Claim C8: with the API credential absent (unconfigured client), both the
per-ingredient and the per-product enrichment calls fail with the
service-misconfigured 500 error, whatever the external call would have
returned (so before any external call is attempted). -/
theorem c8_unconfigured_enrichment_rejected (api_key : Option String)
    (h : pyTruthy api_key = false)
    (reply1 : LLMCallOutcome (Option String)) (inci_name : String)
    (base_info : IngredientInfo)
    (reply2 : LLMCallOutcome (Option String × Option String)) (product_name : String)
    (ingredients : List IngredientRisk) :
    summarize_ingredient api_key reply1 inci_name base_info =
      .error ⟨500, "OPENAI_API_KEY is not configured."⟩ ∧
    summarize_product api_key reply2 product_name ingredients =
      .error ⟨500, "OPENAI_API_KEY is not configured."⟩ := by
  have hc : (openaiClient api_key).isNone = true := by
    unfold openaiClient
    rw [h]
    rfl
  constructor
  · unfold summarize_ingredient
    rw [if_pos hc]
  · unfold summarize_product
    rw [if_pos hc]

/-- Witness for C8 with no API key at all. -/
theorem c8_unconfigured_enrichment_rejected_witness :
    summarize_ingredient none (.ok (some "fine")) "AQUA" c5Info =
      .error ⟨500, "OPENAI_API_KEY is not configured."⟩ ∧
    summarize_product none (.ok (some "A", some "fine")) "Gentle Daily Moisturizer" [] =
      .error ⟨500, "OPENAI_API_KEY is not configured."⟩ :=
  c8_unconfigured_enrichment_rejected none (by decide) (.ok (some "fine")) "AQUA" c5Info
    (.ok (some "A", some "fine")) "Gentle Daily Moisturizer" []

/-- Claim C6: in the remote-catalog variant, when the upstream reports the
product found (`status` equals 1) but both ingredients-text fields are absent
or empty, `/analyze` succeeds (HTTP 200) with an empty ingredients array,
overallScore "N/A" and the non-empty explanatory message — a success outcome,
not an error. -/
theorem c6_found_without_ingredients_is_success (body : OFFResponse)
    (api_key : Option String) (reply : LLMCallOutcome (List Ingredient × String))
    (hs : body.status = some 1)
    (hit : pyTruthy (body.product.getD ⟨none, none, none, none⟩).ingredients_text = false)
    (hite : pyTruthy (body.product.getD ⟨none, none, none, none⟩).ingredients_text_en = false) :
    analyze 200 body api_key reply =
      .ok { statusCode := 200
            productName :=
              pyStrOr (body.product.getD ⟨none, none, none, none⟩).product_name
                (pyStrOr (body.product.getD ⟨none, none, none, none⟩).product_name_en
                  "Unknown product")
            ingredients := []
            overallScore := "N/A"
            message := some "Ingredients not available for this product." } ∧
    "Ingredients not available for this product." ≠ "" := by
  constructor
  · have hf : fetch_product_from_open_food_facts 200 body = .ok body := rfl
    have hor :
        pyTruthy (pyOrStr (body.product.getD ⟨none, none, none, none⟩).ingredients_text
          (body.product.getD ⟨none, none, none, none⟩).ingredients_text_en) = false := by
      unfold pyOrStr
      rw [hit]
      simpa using hite
    simp only [analyze]
    rw [hf, except_bind_ok, hs]
    rw [if_neg (by simp)]
    rw [if_pos hor]
  · decide

/-- Witness for C6: a found product whose `ingredients_text` is absent and
whose `ingredients_text_en` is the empty string. -/
theorem c6_found_without_ingredients_is_success_witness :
    analyze 200 ⟨some 1, some ⟨some "Canned beans", none, none, some ""⟩⟩ none
        (.ok ([], "A")) =
      .ok { statusCode := 200
            productName := "Canned beans"
            ingredients := []
            overallScore := "N/A"
            message := some "Ingredients not available for this product." } ∧
    "Ingredients not available for this product." ≠ "" :=
  c6_found_without_ingredients_is_success
    ⟨some 1, some ⟨some "Canned beans", none, none, some ""⟩⟩ none (.ok ([], "A"))
    (by decide) (by decide) (by decide)

/-- Claim C5 (spec-modelled, see `analyze_ingredients_with_openai`): the
enrichment component's second mode takes a raw free-text ingredient listing
and a product name and, in one call, returns a full structured analysis (an
ingredient array with name/risk/details entries and an overall score), with
the same failure handling as the per-ingredient call: for each failure mode
the surfaced HTTP status coincides with the per-ingredient call's status for
that mode, and an unconfigured client is rejected with the same 500 error. -/
theorem c5_full_analysis_single_call (api_key : Option String)
    (hk : pyTruthy api_key = true)
    (ingredients_text product_name inci_name : String) (base_info : IngredientInfo) :
    (∀ (ingredients : List Ingredient) (score : String),
      analyze_ingredients_with_openai api_key (.ok (ingredients, score))
          ingredients_text product_name =
        .ok { productName := product_name, ingredients := ingredients,
              overallScore := score }) ∧
    statusOf (analyze_ingredients_with_openai api_key .callFailed
        ingredients_text product_name) =
      statusOf (summarize_ingredient api_key .callFailed inci_name base_info) ∧
    statusOf (analyze_ingredients_with_openai api_key .emptyContent
        ingredients_text product_name) =
      statusOf (summarize_ingredient api_key .emptyContent inci_name base_info) ∧
    statusOf (analyze_ingredients_with_openai api_key .invalidJson
        ingredients_text product_name) =
      statusOf (summarize_ingredient api_key .invalidJson inci_name base_info) ∧
    (∀ (reply : LLMCallOutcome (List Ingredient × String)) (bad_key : Option String),
      pyTruthy bad_key = false →
      analyze_ingredients_with_openai bad_key reply ingredients_text product_name =
        .error ⟨500, "OPENAI_API_KEY is not configured."⟩) := by
  have hc : (openaiClient api_key).isNone = false := by
    unfold openaiClient
    rw [hk]
    rfl
  have hif : ∀ {α : Type} (x y : α),
      (if (openaiClient api_key).isNone then x else y) = y := by
    intro α x y
    rw [hc]
    rfl
  refine ⟨?_, ?_, ?_, ?_, ?_⟩
  · intro ingredients score
    unfold analyze_ingredients_with_openai
    rw [hif]
  · unfold analyze_ingredients_with_openai summarize_ingredient
    rw [hif, hif]
    rfl
  · unfold analyze_ingredients_with_openai summarize_ingredient
    rw [hif, hif]
    rfl
  · unfold analyze_ingredients_with_openai summarize_ingredient
    rw [hif, hif]
    rfl
  · intro reply bad_key hbad
    have hcbad : (openaiClient bad_key).isNone = true := by
      unfold openaiClient
      rw [hbad]
      rfl
    unfold analyze_ingredients_with_openai
    rw [if_pos hcbad]

/-- Witness for C5 with a configured key and a concrete parsed analysis. -/
theorem c5_full_analysis_single_call_witness :
    analyze_ingredients_with_openai (some "test-key")
        (.ok ([⟨"water", "low", "solvent"⟩], "A")) "water, sugar" "Canned beans" =
      .ok { productName := "Canned beans"
            ingredients := [⟨"water", "low", "solvent"⟩]
            overallScore := "A" } ∧
    statusOf (analyze_ingredients_with_openai (some "test-key") .callFailed
        "water, sugar" "Canned beans") =
      statusOf (summarize_ingredient (some "test-key") .callFailed "AQUA" c5Info) :=
  ⟨(c5_full_analysis_single_call (some "test-key") (by decide) "water, sugar"
      "Canned beans" "AQUA" c5Info).1 [⟨"water", "low", "solvent"⟩] "A",
   (c5_full_analysis_single_call (some "test-key") (by decide) "water, sugar"
      "Canned beans" "AQUA" c5Info).2.1⟩

/-- Claim C2: for every barcode present in the local catalog, whenever the
`/cosmetics/analyze` handler returns a response, its ingredients array has
exactly one annotation per ingredient identifier of the product's declared
list, in the declared order (each annotation carrying the normalized
identifier), with none added or dropped. -/
theorem c2_one_annotation_per_declared_ingredient (cfg : Bool)
    (summarizeIng : String → IngredientInfo → Except HTTPExc String)
    (summarizeProd : String → List IngredientRisk → Except HTTPExc (String × String))
    (barcode : String) (product : Product) (resp : ProductAnalysisResponse)
    (hp : lookup_product_by_barcode barcode = some product)
    (hr : analyze_cosmetic cfg summarizeIng summarizeProd barcode = .ok resp) :
    resp.ingredients.map IngredientRisk.inciName =
      product.ingredients_inci.map normalize_inci := by
  simp only [analyze_cosmetic, hp] at hr
  cases hb : buildIngredients cfg summarizeIng product.ingredients_inci with
  | error e =>
    rw [hb, except_bind_error] at hr
    cases hr
  | ok ys =>
    rw [hb, except_bind_ok] at hr
    by_cases hc : cfg = true
    · simp only [if_pos hc] at hr
      cases hs : summarizeProd product.product_name ys with
      | error e =>
        rw [hs, except_bind_error] at hr
        cases hr
      | ok ov =>
        rw [hs, except_bind_ok] at hr
        cases hr
        exact buildIngredients_map_inciName cfg summarizeIng product.ingredients_inci ys hb
    · simp only [if_neg hc] at hr
      cases hf : fallback_overall ys with
      | none =>
        simp only [hf, except_bind_error] at hr
        cases hr
      | some fb =>
        simp only [hf, except_bind_ok] at hr
        cases hr
        exact buildIngredients_map_inciName cfg summarizeIng product.ingredients_inci ys hb

/-- Witness for C2 at barcode 4005900889089 with always-succeeding
enrichment oracles. -/
theorem c2_one_annotation_per_declared_ingredient_witness :
    c2Response.ingredients.map IngredientRisk.inciName =
      c2Product.ingredients_inci.map normalize_inci :=
  c2_one_annotation_per_declared_ingredient true c2SummarizeIngOracle c2SummarizeProdOracle
    "4005900889089" c2Product c2Response (by decide) (by decide)

/-- Claim C1: `fallback_overall` maps each annotation's risk level to the
spec's weights low=1, medium=2, high=3, unknown=2, averages them over the
list, and returns "C" when the average is ≥ 2.5, "B" when ≥ 1.8, "A"
otherwise (comparisons inclusive at both boundaries, via `specScore`); the
empty list gets score "B" with the fixed no-ingredients message. -/
theorem c1_fallback_overall_matches_spec (ingredients : List IngredientRisk)
    (hlevels : ∀ item ∈ ingredients,
      item.riskLevel ∈ (["low", "medium", "high", "unknown"] : List String)) :
    (ingredients = [] →
      fallback_overall ingredients =
        some ("B", "No ingredients provided for scoring.")) ∧
    (ingredients ≠ [] →
      (fallback_overall ingredients).map Prod.fst = some (specScore ingredients)) := by
  constructor
  · rintro rfl
    rfl
  · intro hne
    have hweights :
        ingredients.map (fun item => riskWeight item.riskLevel) =
          ingredients.map (fun item => specRiskWeight item.riskLevel) := by
      apply List.map_congr_left
      intro item hmem
      have hm := hlevels item hmem
      simp only [List.mem_cons, List.not_mem_nil, or_false] at hm
      rcases hm with h | h | h | h <;> rw [h] <;> decide
    have hlen : (ingredients.length : ℚ) ≠ 0 := by
      have h2 : 0 < ingredients.length := List.length_pos.mpr hne
      exact_mod_cast Nat.pos_iff_ne_zero.mp h2
    unfold fallback_overall
    rw [if_neg (by simpa using hne)]
    simp only [pyDiv, if_neg hlen, option_bind_some]
    rw [hweights]
    unfold specScore specAverage
    split_ifs <;> rfl

/-- Witness for C1 at a concrete medium+low list (average 3/2, score "A"). -/
theorem c1_fallback_overall_matches_spec_witness :
    (fallback_overall c1Example).map Prod.fst = some (specScore c1Example) :=
  (c1_fallback_overall_matches_spec c1Example (by decide)).2 (by decide)
